import Mathlib

/-!
# SyEI medical-center schema — verification development

Shallow embedding of `src/models/sqlalchemy_models.py`: the declarative
schema (tables, columns, check constraints, unique constraints, foreign-key
delete behaviour), the table-lifecycle helpers and the sample-data seeder,
together with an operational model of the insert/update/delete statements
the schema accepts.

Modelling conventions:
* `UUID` primary keys are modelled as `Nat`, generated from a per-database
  counter (`DB.nextId`); the source's `generate_uuid` produces a fresh
  statistically-unique identifier per row, and the counter keeps exactly the
  property the schema relies on (freshness/uniqueness).
* SQL `DateTime` values are modelled as `Nat` instants; the storage
  backend's `func.now()` clock is modelled by `DB.clock`, advanced on every
  successful mutation.
* `JSONB` payloads are opaque to every constraint in the schema and are
  modelled as `Option String` documents.
* A failed statement returns `Except.error` with the name of the violated
  constraint and leaves the database value unchanged (the caller keeps the
  old `DB`); a successful statement returns the new `DB`.
-/

namespace SyEI

/-- Primary/foreign key type: the source uses 128-bit UUID strings from
`generate_uuid`; modelled as `Nat` drawn from a freshness counter. -/
abbrev UUID := Nat

/-! ## Row types (one structure per table, columns in source order) -/

/-- A row of `users` (class `User`). -/
structure UserRow where
  id : UUID
  first_name : String
  last_name : String
  email : String
  password_hash : String
  role : String
  registration_date : Nat
  is_active : Bool
  created_at : Nat
  updated_at : Nat
  created_by : Option UUID
  updated_by : Option UUID
deriving DecidableEq

/-- A row of `specialists` (class `Specialist`). -/
structure SpecialistRow where
  id : UUID
  user_id : UUID
  specialty : String
  description : Option String
  phone_number : Option String
  professional_license : Option String
  bio : Option String
  created_at : Nat
  updated_at : Nat
  created_by : Option UUID
  updated_by : Option UUID
deriving DecidableEq

/-- A row of `patients` (class `Patient`). -/
structure PatientRow where
  id : UUID
  user_id : UUID
  date_of_birth : Nat
  address : Option String
  emergency_phone : Option String
  emergency_contact_name : Option String
  base_medical_history : Option String
  created_at : Nat
  updated_at : Nat
  created_by : Option UUID
  updated_by : Option UUID
deriving DecidableEq

/-- A row of `family_members` (class `FamilyMember`). -/
structure FamilyMemberRow where
  id : UUID
  user_id : UUID
  patient_id : UUID
  relationship : String
  created_at : Nat
  updated_at : Nat
  created_by : Option UUID
  updated_by : Option UUID
deriving DecidableEq

/-- A row of `appointments` (class `Appointment`). -/
structure AppointmentRow where
  id : UUID
  specialist_id : UUID
  patient_id : UUID
  start_datetime : Nat
  end_datetime : Nat
  status : String
  appointment_type : String
  internal_notes : Option String
  created_at : Nat
  updated_at : Nat
  created_by : Option UUID
  updated_by : Option UUID
deriving DecidableEq

/-- A row of `availability_blocks` (class `AvailabilityBlock`).
`day_of_week` is an SQL `Integer` (source comment: 1=Monday, 7=Sunday). -/
structure AvailabilityBlockRow where
  id : UUID
  specialist_id : UUID
  day_of_week : Int
  start_time : Nat
  end_time : Nat
  is_active : Bool
  exception_date : Option Nat
  created_at : Nat
  updated_at : Nat
  created_by : Option UUID
  updated_by : Option UUID
deriving DecidableEq

/-- A row of `medical_records` (class `MedicalRecord`). -/
structure MedicalRecordRow where
  id : UUID
  patient_id : UUID
  specialist_id : UUID
  record_date : Nat
  diagnosis : Option String
  treatment : Option String
  progress_notes : Option String
  attached_files_json : Option String
  created_at : Nat
  updated_at : Nat
  created_by : Option UUID
  updated_by : Option UUID
deriving DecidableEq

/-- A row of `templates` (class `Template`); `specialist_id` is nullable
with `ondelete='SET NULL'`. -/
structure TemplateRow where
  id : UUID
  specialist_id : Option UUID
  template_name : String
  content : String
  template_type : String
  is_global : Bool
  created_at : Nat
  updated_at : Nat
  created_by : Option UUID
  updated_by : Option UUID
deriving DecidableEq

/-- A row of `educational_materials` (class `EducationalMaterial`);
`specialist_id` is nullable with `ondelete='SET NULL'`. -/
structure EducationalMaterialRow where
  id : UUID
  title : String
  description : Option String
  content_url : String
  material_type : String
  publish_date : Nat
  specialist_id : Option UUID
  created_at : Nat
  updated_at : Nat
  created_by : Option UUID
  updated_by : Option UUID
deriving DecidableEq

/-- A row of `patient_material_assignments` (class `PatientMaterialAssignment`). -/
structure PatientMaterialAssignmentRow where
  id : UUID
  patient_id : UUID
  material_id : UUID
  assignment_date : Nat
  specialist_comments : Option String
  created_at : Nat
  updated_at : Nat
  created_by : Option UUID
  updated_by : Option UUID
deriving DecidableEq

/-- A row of `notifications` (class `Notification`). Note the column list:
`id, user_id, title, message, notification_type, is_read, created_at,
read_at` — there is no `updated_at`, `created_by` or `updated_by` column. -/
structure NotificationRow where
  id : UUID
  user_id : UUID
  title : String
  message : String
  notification_type : String
  is_read : Bool
  created_at : Nat
  read_at : Option Nat
deriving DecidableEq

/-- A row of `audit_logs` (class `AuditLog`). Note the column list: `id,
table_name, record_id, action, old_values, new_values, user_id, timestamp` —
there is no `created_at`/`updated_at`/`created_by`/`updated_by` column. -/
structure AuditLogRow where
  id : UUID
  table_name : String
  record_id : UUID
  action : String
  old_values : Option String
  new_values : Option String
  user_id : Option UUID
  timestamp : Nat
deriving DecidableEq

/-- The relational store: one list of rows per declared table, plus the
identifier-generation counter and the backend clock. -/
structure DB where
  users : List UserRow
  specialists : List SpecialistRow
  patients : List PatientRow
  family_members : List FamilyMemberRow
  appointments : List AppointmentRow
  availability_blocks : List AvailabilityBlockRow
  medical_records : List MedicalRecordRow
  templates : List TemplateRow
  educational_materials : List EducationalMaterialRow
  patient_material_assignments : List PatientMaterialAssignmentRow
  notifications : List NotificationRow
  audit_logs : List AuditLogRow
  nextId : Nat
  clock : Nat
deriving DecidableEq

/-- The freshly materialised store: every table empty. -/
def emptyDB : DB :=
  { users := [], specialists := [], patients := [], family_members := []
    appointments := [], availability_blocks := [], medical_records := []
    templates := [], educational_materials := []
    patient_material_assignments := [], notifications := [], audit_logs := []
    nextId := 0, clock := 0 }

/-! ## Check constraints -/

/-- Check constraint `valid_user_role` on `users`:
`role.in_(['Admin', 'Specialist', 'Patient', 'FamilyMember'])`. -/
def valid_user_role (role : String) : Bool :=
  ["Admin", "Specialist", "Patient", "FamilyMember"].contains role

/-- Check constraint `valid_appointment_status` on `appointments`:
`status.in_(['Pending', 'Confirmed', 'Canceled', 'Completed', 'NoShow'])`. -/
def valid_appointment_status (status : String) : Bool :=
  ["Pending", "Confirmed", "Canceled", "Completed", "NoShow"].contains status

/-- Check constraint `valid_audit_action` on `audit_logs`:
`action.in_(['INSERT', 'UPDATE', 'DELETE'])`. -/
def valid_audit_action (action : String) : Bool :=
  ["INSERT", "UPDATE", "DELETE"].contains action

/-! ## The `valid_day_of_week` check expression

The source declares, on `availability_blocks`,

  `CheckConstraint(day_of_week >= 1 and day_of_week <= 7, name='valid_day_of_week')`

using the Python keyword `and` between two column-comparison objects, not a
SQL-level conjunction (`and_` / two separate clauses). We embed the
single-column comparison expressions the two operands build, and the Python
`and` that combines them. -/

/-- A single-column comparison expression as built by comparing the
`day_of_week` column object against an integer literal. -/
inductive ColExpr : Type
  /-- `column >= k` -/
  | geConst : Int → ColExpr
  /-- `column <= k` -/
  | leConst : Int → ColExpr
deriving DecidableEq

/-- The predicate a comparison expression denotes on a column value — what
the backend checks for a row once the expression reaches the database. -/
def ColExpr.eval : ColExpr → Int → Bool
  | .geConst k, v => decide (k ≤ v)
  | .leConst k, v => decide (v ≤ k)

/-- Modelled from the spec: Python-side truthiness of a comparison-expression
object (an external-collaborator behaviour, not code under `src/`). The
spec's design note records that in practice the written logical-AND form
"only restricts the upper bound": the left operand of `and` is treated as a
truthy object, so the conjunction never reaches the database. We embed that
recorded behaviour: every expression object tests as truthy. -/
def ColExpr.truthy (_ : ColExpr) : Bool := true

/-- Python's `and` on expression objects: `x and y` evaluates to `y` when
`x` tests as truthy, and to `x` otherwise. It does not build a conjunction
of the two expressions. -/
def pyAnd (a b : ColExpr) : ColExpr := if a.truthy then b else a

/-- The expression actually handed to `CheckConstraint(..., name='valid_day_of_week')`:
the Python evaluation of `day_of_week >= 1 and day_of_week <= 7`. -/
def valid_day_of_week_expr : ColExpr :=
  pyAnd (.geConst 1) (.leConst 7)

/-! ## Row-level constraint predicates -/

/-- Both check constraints declared on `appointments`:
`valid_appointment_status` and `valid_appointment_time`
(`end_datetime > start_datetime`). -/
def appointmentRowOk (a : AppointmentRow) : Bool :=
  valid_appointment_status a.status && decide (a.start_datetime < a.end_datetime)

/-- Both check constraints declared on `availability_blocks`: the
`valid_day_of_week` expression as constructed (see `valid_day_of_week_expr`)
and `valid_time_range` (`end_time > start_time`). -/
def availabilityBlockRowOk (b : AvailabilityBlockRow) : Bool :=
  valid_day_of_week_expr.eval b.day_of_week && decide (b.start_time < b.end_time)

/-! ## Foreign-key lookups -/

/-- Does a `users` row with this primary key exist? -/
def DB.hasUser (db : DB) (i : UUID) : Bool :=
  db.users.any (fun u => u.id == i)

/-- Does a `specialists` row with this primary key exist? -/
def DB.hasSpecialist (db : DB) (i : UUID) : Bool :=
  db.specialists.any (fun s => s.id == i)

/-- Does a `patients` row with this primary key exist? -/
def DB.hasPatient (db : DB) (i : UUID) : Bool :=
  db.patients.any (fun p => p.id == i)

/-- A nullable `ForeignKey('users.id')` column value is admissible when it is
NULL or names an existing user (used for `created_by` / `updated_by`). -/
def DB.userRefOk (db : DB) : Option UUID → Bool
  | none => true
  | some i => db.hasUser i

/-! ## Insert statements

Each `XInsert` structure carries the values an INSERT supplies; columns the
source gives a `default=` keep `Option` fields resolved against the
defaults (`generate_uuid` for `id`, `func.now()` for timestamp columns,
boolean literals, `'Pending'` for `Appointment.status`) exactly where the
source declares them. Nullable audit columns `created_by` / `updated_by`
have no default and are NULL unless supplied. -/

/-- Values supplied when inserting a `users` row. -/
structure UserInsert where
  first_name : String
  last_name : String
  email : String
  password_hash : String
  role : String
  registration_date : Option Nat := none
  is_active : Option Bool := none
  created_by : Option UUID := none
  updated_by : Option UUID := none
deriving DecidableEq

/-- The `users` row an INSERT stores: `id` from `generate_uuid` (the
freshness counter), `registration_date`/`created_at`/`updated_at` defaulting
to `func.now()`, `is_active` defaulting to `True`. -/
def mkUserRow (db : DB) (r : UserInsert) : UserRow :=
  { id := db.nextId
    first_name := r.first_name
    last_name := r.last_name
    email := r.email
    password_hash := r.password_hash
    role := r.role
    registration_date := r.registration_date.getD db.clock
    is_active := r.is_active.getD true
    created_at := db.clock
    updated_at := db.clock
    created_by := r.created_by
    updated_by := r.updated_by }

/-- INSERT INTO `users`: enforces the `valid_user_role` check constraint,
the UNIQUE constraint on `email` and the self-referential audit foreign
keys, then appends the row. -/
def insertUser (db : DB) (r : UserInsert) : Except String DB :=
  if !(valid_user_role r.role) then
    .error "check: valid_user_role"
  else if db.users.any (fun u => u.email == r.email) then
    .error "unique: users.email"
  else if !(db.userRefOk r.created_by && db.userRefOk r.updated_by) then
    .error "fk: users.created_by/updated_by"
  else
    .ok { db with
          users := db.users ++ [mkUserRow db r]
          nextId := db.nextId + 1
          clock := db.clock + 1 }

/-- Values supplied when inserting a `specialists` row. -/
structure SpecialistInsert where
  user_id : UUID
  specialty : String
  description : Option String := none
  phone_number : Option String := none
  professional_license : Option String := none
  bio : Option String := none
  created_by : Option UUID := none
  updated_by : Option UUID := none
deriving DecidableEq

/-- The `specialists` row an INSERT stores. -/
def mkSpecialistRow (db : DB) (r : SpecialistInsert) : SpecialistRow :=
  { id := db.nextId
    user_id := r.user_id
    specialty := r.specialty
    description := r.description
    phone_number := r.phone_number
    professional_license := r.professional_license
    bio := r.bio
    created_at := db.clock
    updated_at := db.clock
    created_by := r.created_by
    updated_by := r.updated_by }

/-- INSERT INTO `specialists`: `user_id` is declared `unique=True` and
references `users.id`. -/
def insertSpecialist (db : DB) (r : SpecialistInsert) : Except String DB :=
  if db.specialists.any (fun s => s.user_id == r.user_id) then
    .error "unique: specialists.user_id"
  else if !(db.hasUser r.user_id) then
    .error "fk: specialists.user_id"
  else if !(db.userRefOk r.created_by && db.userRefOk r.updated_by) then
    .error "fk: specialists.created_by/updated_by"
  else
    .ok { db with
          specialists := db.specialists ++ [mkSpecialistRow db r]
          nextId := db.nextId + 1
          clock := db.clock + 1 }

/-- Values supplied when inserting a `patients` row. -/
structure PatientInsert where
  user_id : UUID
  date_of_birth : Nat
  address : Option String := none
  emergency_phone : Option String := none
  emergency_contact_name : Option String := none
  base_medical_history : Option String := none
  created_by : Option UUID := none
  updated_by : Option UUID := none
deriving DecidableEq

/-- The `patients` row an INSERT stores. -/
def mkPatientRow (db : DB) (r : PatientInsert) : PatientRow :=
  { id := db.nextId
    user_id := r.user_id
    date_of_birth := r.date_of_birth
    address := r.address
    emergency_phone := r.emergency_phone
    emergency_contact_name := r.emergency_contact_name
    base_medical_history := r.base_medical_history
    created_at := db.clock
    updated_at := db.clock
    created_by := r.created_by
    updated_by := r.updated_by }

/-- INSERT INTO `patients`: `user_id` is declared `unique=True` and
references `users.id`. -/
def insertPatient (db : DB) (r : PatientInsert) : Except String DB :=
  if db.patients.any (fun p => p.user_id == r.user_id) then
    .error "unique: patients.user_id"
  else if !(db.hasUser r.user_id) then
    .error "fk: patients.user_id"
  else if !(db.userRefOk r.created_by && db.userRefOk r.updated_by) then
    .error "fk: patients.created_by/updated_by"
  else
    .ok { db with
          patients := db.patients ++ [mkPatientRow db r]
          nextId := db.nextId + 1
          clock := db.clock + 1 }

/-- Values supplied when inserting a `family_members` row. -/
structure FamilyMemberInsert where
  user_id : UUID
  patient_id : UUID
  relationship : String
  created_by : Option UUID := none
  updated_by : Option UUID := none
deriving DecidableEq

/-- The `family_members` row an INSERT stores. -/
def mkFamilyMemberRow (db : DB) (r : FamilyMemberInsert) : FamilyMemberRow :=
  { id := db.nextId
    user_id := r.user_id
    patient_id := r.patient_id
    relationship := r.relationship
    created_at := db.clock
    updated_at := db.clock
    created_by := r.created_by
    updated_by := r.updated_by }

/-- INSERT INTO `family_members`: the table declares
`UniqueConstraint('user_id', 'patient_id', name='unique_user_patient')` —
uniqueness of the pair, not of `user_id` alone. -/
def insertFamilyMember (db : DB) (r : FamilyMemberInsert) : Except String DB :=
  if db.family_members.any (fun f => f.user_id == r.user_id && f.patient_id == r.patient_id) then
    .error "unique: unique_user_patient"
  else if !(db.hasUser r.user_id) then
    .error "fk: family_members.user_id"
  else if !(db.hasPatient r.patient_id) then
    .error "fk: family_members.patient_id"
  else if !(db.userRefOk r.created_by && db.userRefOk r.updated_by) then
    .error "fk: family_members.created_by/updated_by"
  else
    .ok { db with
          family_members := db.family_members ++ [mkFamilyMemberRow db r]
          nextId := db.nextId + 1
          clock := db.clock + 1 }

/-- Values supplied when inserting an `appointments` row. `status` is
optional because the column declares `default='Pending'`. -/
structure AppointmentInsert where
  specialist_id : UUID
  patient_id : UUID
  start_datetime : Nat
  end_datetime : Nat
  status : Option String := none
  appointment_type : String
  internal_notes : Option String := none
  created_by : Option UUID := none
  updated_by : Option UUID := none
deriving DecidableEq

/-- The `appointments` row an INSERT stores: `status` defaults to
`'Pending'` when the INSERT supplies no explicit value. -/
def mkAppointmentRow (db : DB) (r : AppointmentInsert) : AppointmentRow :=
  { id := db.nextId
    specialist_id := r.specialist_id
    patient_id := r.patient_id
    start_datetime := r.start_datetime
    end_datetime := r.end_datetime
    status := r.status.getD "Pending"
    appointment_type := r.appointment_type
    internal_notes := r.internal_notes
    created_at := db.clock
    updated_at := db.clock
    created_by := r.created_by
    updated_by := r.updated_by }

/-- INSERT INTO `appointments`: enforces `valid_appointment_status`,
`valid_appointment_time` (`end_datetime > start_datetime`) and the
specialist/patient foreign keys. -/
def insertAppointment (db : DB) (r : AppointmentInsert) : Except String DB :=
  if !(appointmentRowOk (mkAppointmentRow db r)) then
    .error "check: valid_appointment_status/valid_appointment_time"
  else if !(db.hasSpecialist r.specialist_id) then
    .error "fk: appointments.specialist_id"
  else if !(db.hasPatient r.patient_id) then
    .error "fk: appointments.patient_id"
  else if !(db.userRefOk r.created_by && db.userRefOk r.updated_by) then
    .error "fk: appointments.created_by/updated_by"
  else
    .ok { db with
          appointments := db.appointments ++ [mkAppointmentRow db r]
          nextId := db.nextId + 1
          clock := db.clock + 1 }

/-- Values supplied when inserting an `availability_blocks` row.
`is_active` is optional because the column declares `default=True`. -/
structure AvailabilityBlockInsert where
  specialist_id : UUID
  day_of_week : Int
  start_time : Nat
  end_time : Nat
  is_active : Option Bool := none
  exception_date : Option Nat := none
  created_by : Option UUID := none
  updated_by : Option UUID := none
deriving DecidableEq

/-- The `availability_blocks` row an INSERT stores. -/
def mkAvailabilityBlockRow (db : DB) (r : AvailabilityBlockInsert) : AvailabilityBlockRow :=
  { id := db.nextId
    specialist_id := r.specialist_id
    day_of_week := r.day_of_week
    start_time := r.start_time
    end_time := r.end_time
    is_active := r.is_active.getD true
    exception_date := r.exception_date
    created_at := db.clock
    updated_at := db.clock
    created_by := r.created_by
    updated_by := r.updated_by }

/-- INSERT INTO `availability_blocks`: enforces the `valid_day_of_week`
expression as constructed, `valid_time_range` and the specialist foreign
key. -/
def insertAvailabilityBlock (db : DB) (r : AvailabilityBlockInsert) : Except String DB :=
  if !(availabilityBlockRowOk (mkAvailabilityBlockRow db r)) then
    .error "check: valid_day_of_week/valid_time_range"
  else if !(db.hasSpecialist r.specialist_id) then
    .error "fk: availability_blocks.specialist_id"
  else if !(db.userRefOk r.created_by && db.userRefOk r.updated_by) then
    .error "fk: availability_blocks.created_by/updated_by"
  else
    .ok { db with
          availability_blocks := db.availability_blocks ++ [mkAvailabilityBlockRow db r]
          nextId := db.nextId + 1
          clock := db.clock + 1 }

/-! ## Update statements

An UPDATE names a primary key and a set of new column values for the
mutable columns; the backend re-checks the table's check constraints on
every updated row and refreshes `updated_at` (`onupdate=func.now()`). -/

/-- New column values an UPDATE of `appointments` may supply. -/
structure AppointmentUpdate where
  start_datetime : Option Nat := none
  end_datetime : Option Nat := none
  status : Option String := none
  appointment_type : Option String := none
  internal_notes : Option (Option String) := none
deriving DecidableEq

/-- Apply an `appointments` UPDATE to one row, refreshing `updated_at`. -/
def applyAppointmentUpdate (now : Nat) (u : AppointmentUpdate) (a : AppointmentRow) :
    AppointmentRow :=
  { a with
    start_datetime := u.start_datetime.getD a.start_datetime
    end_datetime := u.end_datetime.getD a.end_datetime
    status := u.status.getD a.status
    appointment_type := u.appointment_type.getD a.appointment_type
    internal_notes := u.internal_notes.getD a.internal_notes
    updated_at := now }

/-- UPDATE `appointments` SET ... WHERE `id = i`: the statement fails (and
changes nothing) unless every updated row still satisfies both check
constraints. -/
def updateAppointment (db : DB) (i : UUID) (u : AppointmentUpdate) : Except String DB :=
  if (db.appointments.filter (fun a => a.id == i)).all
      (fun a => appointmentRowOk (applyAppointmentUpdate db.clock u a)) then
    .ok { db with
          appointments := db.appointments.map
            (fun a => if a.id == i then applyAppointmentUpdate db.clock u a else a)
          clock := db.clock + 1 }
  else
    .error "check: valid_appointment_status/valid_appointment_time"

/-- New column values an UPDATE of `availability_blocks` may supply. -/
structure AvailabilityBlockUpdate where
  day_of_week : Option Int := none
  start_time : Option Nat := none
  end_time : Option Nat := none
  is_active : Option Bool := none
  exception_date : Option (Option Nat) := none
deriving DecidableEq

/-- Apply an `availability_blocks` UPDATE to one row, refreshing
`updated_at`. -/
def applyAvailabilityBlockUpdate (now : Nat) (u : AvailabilityBlockUpdate)
    (b : AvailabilityBlockRow) : AvailabilityBlockRow :=
  { b with
    day_of_week := u.day_of_week.getD b.day_of_week
    start_time := u.start_time.getD b.start_time
    end_time := u.end_time.getD b.end_time
    is_active := u.is_active.getD b.is_active
    exception_date := u.exception_date.getD b.exception_date
    updated_at := now }

/-- UPDATE `availability_blocks` SET ... WHERE `id = i`. -/
def updateAvailabilityBlock (db : DB) (i : UUID) (u : AvailabilityBlockUpdate) :
    Except String DB :=
  if (db.availability_blocks.filter (fun b => b.id == i)).all
      (fun b => availabilityBlockRowOk (applyAvailabilityBlockUpdate db.clock u b)) then
    .ok { db with
          availability_blocks := db.availability_blocks.map
            (fun b => if b.id == i then applyAvailabilityBlockUpdate db.clock u b else b)
          clock := db.clock + 1 }
  else
    .error "check: valid_day_of_week/valid_time_range"

/-! ## Delete statements with the declared referential actions -/

/-- DELETE FROM `patients` WHERE `id = pid`. Every foreign key that points
at `patients.id` is declared `ondelete='CASCADE'`
(`family_members.patient_id`, `appointments.patient_id`,
`medical_records.patient_id`, `patient_material_assignments.patient_id`),
so the referencing rows are removed with the patient. -/
def deletePatient (db : DB) (pid : UUID) : DB :=
  { db with
    patients := db.patients.filter (fun p => decide (p.id ≠ pid))
    family_members := db.family_members.filter (fun f => decide (f.patient_id ≠ pid))
    appointments := db.appointments.filter (fun a => decide (a.patient_id ≠ pid))
    medical_records := db.medical_records.filter (fun m => decide (m.patient_id ≠ pid))
    patient_material_assignments :=
      db.patient_material_assignments.filter (fun x => decide (x.patient_id ≠ pid))
    clock := db.clock + 1 }

/-- DELETE FROM `specialists` WHERE `id = sid`. Foreign keys declared
`ondelete='CASCADE'` (`appointments.specialist_id`,
`availability_blocks.specialist_id`, `medical_records.specialist_id`)
remove their rows; foreign keys declared `ondelete='SET NULL'`
(`templates.specialist_id`, `educational_materials.specialist_id`) keep
their rows and null the reference. -/
def deleteSpecialist (db : DB) (sid : UUID) : DB :=
  { db with
    specialists := db.specialists.filter (fun s => decide (s.id ≠ sid))
    appointments := db.appointments.filter (fun a => decide (a.specialist_id ≠ sid))
    availability_blocks :=
      db.availability_blocks.filter (fun b => decide (b.specialist_id ≠ sid))
    medical_records := db.medical_records.filter (fun m => decide (m.specialist_id ≠ sid))
    templates := db.templates.map
      (fun t => if t.specialist_id = some sid then { t with specialist_id := none } else t)
    educational_materials := db.educational_materials.map
      (fun m => if m.specialist_id = some sid then { m with specialist_id := none } else m)
    clock := db.clock + 1 }

/-! ## The declared column lists (the `Column(...)` declarations, in source
order), for schema-level properties. -/

/-- Columns of `users`. -/
def users_columns : List String :=
  ["id", "first_name", "last_name", "email", "password_hash", "role",
   "registration_date", "is_active", "created_at", "updated_at",
   "created_by", "updated_by"]

/-- Columns of `specialists`. -/
def specialists_columns : List String :=
  ["id", "user_id", "specialty", "description", "phone_number",
   "professional_license", "bio", "created_at", "updated_at",
   "created_by", "updated_by"]

/-- Columns of `patients`. -/
def patients_columns : List String :=
  ["id", "user_id", "date_of_birth", "address", "emergency_phone",
   "emergency_contact_name", "base_medical_history", "created_at",
   "updated_at", "created_by", "updated_by"]

/-- Columns of `family_members`. -/
def family_members_columns : List String :=
  ["id", "user_id", "patient_id", "relationship", "created_at",
   "updated_at", "created_by", "updated_by"]

/-- Columns of `appointments`. -/
def appointments_columns : List String :=
  ["id", "specialist_id", "patient_id", "start_datetime", "end_datetime",
   "status", "appointment_type", "internal_notes", "created_at",
   "updated_at", "created_by", "updated_by"]

/-- Columns of `availability_blocks`. -/
def availability_blocks_columns : List String :=
  ["id", "specialist_id", "day_of_week", "start_time", "end_time",
   "is_active", "exception_date", "created_at", "updated_at",
   "created_by", "updated_by"]

/-- Columns of `medical_records`. -/
def medical_records_columns : List String :=
  ["id", "patient_id", "specialist_id", "record_date", "diagnosis",
   "treatment", "progress_notes", "attached_files_json", "created_at",
   "updated_at", "created_by", "updated_by"]

/-- Columns of `templates`. -/
def templates_columns : List String :=
  ["id", "specialist_id", "template_name", "content", "template_type",
   "is_global", "created_at", "updated_at", "created_by", "updated_by"]

/-- Columns of `educational_materials`. -/
def educational_materials_columns : List String :=
  ["id", "title", "description", "content_url", "material_type",
   "publish_date", "specialist_id", "created_at", "updated_at",
   "created_by", "updated_by"]

/-- Columns of `patient_material_assignments`. -/
def patient_material_assignments_columns : List String :=
  ["id", "patient_id", "material_id", "assignment_date",
   "specialist_comments", "created_at", "updated_at", "created_by",
   "updated_by"]

/-- Columns of `notifications`. -/
def notifications_columns : List String :=
  ["id", "user_id", "title", "message", "notification_type", "is_read",
   "created_at", "read_at"]

/-- Columns of `audit_logs`. -/
def audit_logs_columns : List String :=
  ["id", "table_name", "record_id", "action", "old_values", "new_values",
   "user_id", "timestamp"]

/-- Every table registered on `Base.metadata`, with its columns. -/
def schema_tables : List (String × List String) :=
  [("users", users_columns),
   ("specialists", specialists_columns),
   ("patients", patients_columns),
   ("family_members", family_members_columns),
   ("appointments", appointments_columns),
   ("availability_blocks", availability_blocks_columns),
   ("medical_records", medical_records_columns),
   ("templates", templates_columns),
   ("educational_materials", educational_materials_columns),
   ("patient_material_assignments", patient_material_assignments_columns),
   ("notifications", notifications_columns),
   ("audit_logs", audit_logs_columns)]

/-- The table names registered on `Base.metadata`. -/
def schema_table_names : List String :=
  schema_tables.map (fun t => t.1)

/-- The four audit-attribution columns the spec's data-model preamble
ascribes to every entity. -/
def audit_columns : List String :=
  ["created_at", "updated_at", "created_by", "updated_by"]

/-- Does a table carry all four audit-attribution columns? -/
def hasAuditColumns (cols : List String) : Bool :=
  audit_columns.all (fun c => cols.contains c)

/-- The tables other than `notifications` and `audit_logs`. -/
def core_tables : List (String × List String) :=
  schema_tables.filter
    (fun t => t.1 != "notifications" && t.1 != "audit_logs")

/-! ## Table-lifecycle helpers -/

/-- Embeds `create_tables(engine)`, i.e. `Base.metadata.create_all(engine)`.
`MetaData.create_all` defaults to `checkfirst=True`: it inspects the target
and issues CREATE TABLE only for registered tables not already present.
Tables that already exist are left untouched and no error is raised. -/
def create_tables (existing : List String) : Except String (List String) :=
  .ok (existing ++ schema_table_names.filter (fun t => !(existing.contains t)))

/-- Embeds `drop_tables(engine)`, i.e. `Base.metadata.drop_all(engine)`.
`MetaData.drop_all` defaults to `checkfirst=True`: it issues DROP TABLE only
for registered tables that are present, so absent tables are a no-op and
unregistered tables are left untouched. -/
def drop_tables (existing : List String) : Except String (List String) :=
  .ok (existing.filter (fun t => !(schema_table_names.contains t)))

/-! ## Sample-data seeder (`create_sample_data`) -/

/-- Modelled from the spec: the external credential-hashing collaborator
(`werkzeug.security.generate_password_hash`), a one-way salted hash of the
plaintext. Its output is opaque to every constraint; modelled as a tagged
string. -/
def generate_password_hash (password : String) : String :=
  "pbkdf2:" ++ password

/-- The admin `User(...)` literal of `create_sample_data`. -/
def admin_user : UserInsert :=
  { first_name := "Admin"
    last_name := "User"
    email := "admin@medicalcenter.com"
    password_hash := generate_password_hash "admin123"
    role := "Admin" }

/-- The specialist `User(...)` literal of `create_sample_data`. -/
def specialist_user : UserInsert :=
  { first_name := "Dr. Sarah"
    last_name := "Johnson"
    email := "sarah.johnson@medicalcenter.com"
    password_hash := generate_password_hash "specialist123"
    role := "Specialist" }

/-- The patient `User(...)` literal of `create_sample_data`. -/
def patient_user : UserInsert :=
  { first_name := "John"
    last_name := "Doe"
    email := "john.doe@email.com"
    password_hash := generate_password_hash "patient123"
    role := "Patient" }

/-- Embeds `create_sample_data(session)`: three `User` inserts committed
first (so the sub-profiles can reference the user identifiers), then the
`Specialist` and `Patient` sub-profiles, committed again. Each insert that
violates a constraint aborts the run. `datetime(1985, 6, 15)` is encoded on
the `Nat` timeline as `19850615`. -/
def create_sample_data (db0 : DB) : Except String DB :=
  (insertUser db0 admin_user).bind fun db1 =>
    (insertUser db1 specialist_user).bind fun db2 =>
      (insertUser db2 patient_user).bind fun db3 =>
        (insertSpecialist db3
          { user_id := db1.nextId
            specialty := "Acupuncture"
            description := some "Licensed acupuncturist with 10+ years of experience"
            phone_number := some "+1-555-0123"
            professional_license := some "ACU-12345"
            bio := some "Dr. Sarah Johnson is a certified acupuncturist specializing in pain management and stress relief." }).bind
          fun db4 =>
            insertPatient db4
              { user_id := db2.nextId
                date_of_birth := 19850615
                address := some "123 Main St, City, State 12345"
                emergency_phone := some "+1-555-9999"
                emergency_contact_name := some "Jane Doe"
                base_medical_history := some "No known allergies. Previous treatments include physical therapy for back pain." }

/-! ## Reachable states

A database state is reachable when it arises from the freshly materialised
store by a finite sequence of statements the schema accepts: the claims
about storage-layer invariants quantify over exactly these states. -/

/-- The states reachable from `emptyDB` through accepted statements. -/
inductive Reachable : DB → Prop
  | empty : Reachable emptyDB
  | insert_user {db db' : DB} (r : UserInsert) :
      Reachable db → insertUser db r = .ok db' → Reachable db'
  | insert_specialist {db db' : DB} (r : SpecialistInsert) :
      Reachable db → insertSpecialist db r = .ok db' → Reachable db'
  | insert_patient {db db' : DB} (r : PatientInsert) :
      Reachable db → insertPatient db r = .ok db' → Reachable db'
  | insert_family_member {db db' : DB} (r : FamilyMemberInsert) :
      Reachable db → insertFamilyMember db r = .ok db' → Reachable db'
  | insert_appointment {db db' : DB} (r : AppointmentInsert) :
      Reachable db → insertAppointment db r = .ok db' → Reachable db'
  | insert_availability_block {db db' : DB} (r : AvailabilityBlockInsert) :
      Reachable db → insertAvailabilityBlock db r = .ok db' → Reachable db'
  | update_appointment {db db' : DB} (i : UUID) (u : AppointmentUpdate) :
      Reachable db → updateAppointment db i u = .ok db' → Reachable db'
  | update_availability_block {db db' : DB} (i : UUID) (u : AvailabilityBlockUpdate) :
      Reachable db → updateAvailabilityBlock db i u = .ok db' → Reachable db'
  | delete_patient {db : DB} (pid : UUID) :
      Reachable db → Reachable (deletePatient db pid)
  | delete_specialist {db : DB} (sid : UUID) :
      Reachable db → Reachable (deleteSpecialist db sid)

/-! ## Concrete scenario data

A small population built through the accepted statements, used to
instantiate the schema-level theorems on concrete states. Identifier
assignment (from the freshness counter starting at 0): users 0–3,
specialist profile 4, patient profiles 5 and 6, family-member row 7. -/

/-- A user holding the Specialist role (gets id 0). -/
def demo_specialist_user : UserInsert :=
  { first_name := "Sara"
    last_name := "Vega"
    email := "sara.vega@example.com"
    password_hash := generate_password_hash "s1"
    role := "Specialist" }

/-- A first user holding the Patient role (gets id 1). -/
def demo_patient_user1 : UserInsert :=
  { first_name := "Pau"
    last_name := "Mas"
    email := "pau.mas@example.com"
    password_hash := generate_password_hash "p1"
    role := "Patient" }

/-- A second user holding the Patient role (gets id 2). -/
def demo_patient_user2 : UserInsert :=
  { first_name := "Lia"
    last_name := "Bosch"
    email := "lia.bosch@example.com"
    password_hash := generate_password_hash "p2"
    role := "Patient" }

/-- A user holding the FamilyMember role (gets id 3). -/
def demo_family_user : UserInsert :=
  { first_name := "Kim"
    last_name := "Soler"
    email := "kim.soler@example.com"
    password_hash := generate_password_hash "f1"
    role := "FamilyMember" }

/-- The accepted statement sequence populating the demo store: four users
(ids 0–3), a specialist profile for user 0 (id 4), patient profiles for
users 1 and 2 (ids 5 and 6), and a family-member row linking user 3 to
patient 5 (id 7). -/
def demo_seed : Except String DB :=
  (insertUser emptyDB demo_specialist_user).bind fun db =>
    (insertUser db demo_patient_user1).bind fun db =>
      (insertUser db demo_patient_user2).bind fun db =>
        (insertUser db demo_family_user).bind fun db =>
          (insertSpecialist db { user_id := 0, specialty := "Acupuncture" }).bind fun db =>
            (insertPatient db { user_id := 1, date_of_birth := 19900101 }).bind fun db =>
              (insertPatient db { user_id := 2, date_of_birth := 19910101 }).bind fun db =>
                insertFamilyMember db
                  { user_id := 3, patient_id := 5, relationship := "spouse" }

/-- The demo store (the seed succeeds; the `emptyDB` fallback is never
taken, as the theorems about `demo_db` establish). -/
def demo_db : DB :=
  match demo_seed with
  | .ok db => db
  | .error _ => emptyDB

/-- A second family-member row for the same user 3 but the other patient
profile (6): same `user_id`, different `(user_id, patient_id)` pair. -/
def demo_fm2 : FamilyMemberInsert :=
  { user_id := 3, patient_id := 6, relationship := "spouse" }

/-- The demo store after the second family-member insert for user 3. -/
def demo_db_fm2 : DB :=
  match insertFamilyMember demo_db demo_fm2 with
  | .ok db => db
  | .error _ => emptyDB

/-- An availability block for specialist 4 with `day_of_week = 0`, outside
the documented 1–7 range (start 09:00, end 10:00 in minutes). -/
def demo_block : AvailabilityBlockInsert :=
  { specialist_id := 4, day_of_week := 0, start_time := 540, end_time := 600 }

/-- The demo store after inserting `demo_block`. -/
def demo_db_block : DB :=
  match insertAvailabilityBlock demo_db demo_block with
  | .ok db => db
  | .error _ => emptyDB

/-- An appointment INSERT for specialist 4 and patient 5 supplying no
explicit `status` value. -/
def demo_appointment : AppointmentInsert :=
  { specialist_id := 4
    patient_id := 5
    start_datetime := 100
    end_datetime := 200
    appointment_type := "Consultation" }

/-- The demo store after inserting `demo_appointment`. -/
def demo_db_appt : DB :=
  match insertAppointment demo_db demo_appointment with
  | .ok db => db
  | .error _ => emptyDB

/-- A user INSERT whose role, `"Doctor"`, is outside the closed role set. -/
def doctor_user : UserInsert :=
  { first_name := "Ana"
    last_name := "Ruiz"
    email := "ana.ruiz@example.com"
    password_hash := generate_password_hash "d1"
    role := "Doctor" }

/-- The store produced by the first `create_sample_data` run on the fresh
store (the run succeeds; the fallback is never taken). -/
def sample_db : DB :=
  match create_sample_data emptyDB with
  | .ok db => db
  | .error _ => emptyDB

/-- The check constraint `valid_appointment_time` alone:
`end_datetime > start_datetime`. -/
def appointmentTimeOk (a : AppointmentRow) : Bool :=
  decide (a.start_datetime < a.end_datetime)

/-! ## Helper lemmas: how each accepted statement touches `appointments` -/

/-- An accepted `users` INSERT leaves `appointments` unchanged. -/
theorem insertUser_ok_appointments {db db' : DB} {r : UserInsert}
    (h : insertUser db r = .ok db') : db'.appointments = db.appointments := by
  unfold insertUser at h
  repeat' split at h
  all_goals first
    | exact Except.noConfusion h
    | (injection h with h; subst h; rfl)

/-- An accepted `specialists` INSERT leaves `appointments` unchanged. -/
theorem insertSpecialist_ok_appointments {db db' : DB} {r : SpecialistInsert}
    (h : insertSpecialist db r = .ok db') : db'.appointments = db.appointments := by
  unfold insertSpecialist at h
  repeat' split at h
  all_goals first
    | exact Except.noConfusion h
    | (injection h with h; subst h; rfl)

/-- An accepted `patients` INSERT leaves `appointments` unchanged. -/
theorem insertPatient_ok_appointments {db db' : DB} {r : PatientInsert}
    (h : insertPatient db r = .ok db') : db'.appointments = db.appointments := by
  unfold insertPatient at h
  repeat' split at h
  all_goals first
    | exact Except.noConfusion h
    | (injection h with h; subst h; rfl)

/-- An accepted `family_members` INSERT leaves `appointments` unchanged. -/
theorem insertFamilyMember_ok_appointments {db db' : DB} {r : FamilyMemberInsert}
    (h : insertFamilyMember db r = .ok db') : db'.appointments = db.appointments := by
  unfold insertFamilyMember at h
  repeat' split at h
  all_goals first
    | exact Except.noConfusion h
    | (injection h with h; subst h; rfl)

/-- An accepted `availability_blocks` INSERT leaves `appointments`
unchanged. -/
theorem insertAvailabilityBlock_ok_appointments {db db' : DB}
    {r : AvailabilityBlockInsert} (h : insertAvailabilityBlock db r = .ok db') :
    db'.appointments = db.appointments := by
  unfold insertAvailabilityBlock at h
  repeat' split at h
  all_goals first
    | exact Except.noConfusion h
    | (injection h with h; subst h; rfl)

/-- An accepted `availability_blocks` UPDATE leaves `appointments`
unchanged. -/
theorem updateAvailabilityBlock_ok_appointments {db db' : DB} {i : UUID}
    {u : AvailabilityBlockUpdate} (h : updateAvailabilityBlock db i u = .ok db') :
    db'.appointments = db.appointments := by
  unfold updateAvailabilityBlock at h
  repeat' split at h
  all_goals first
    | exact Except.noConfusion h
    | (injection h with h; subst h; rfl)

/-- An accepted `appointments` INSERT appends exactly the stored row. -/
theorem insertAppointment_ok_shape {db db' : DB} {r : AppointmentInsert}
    (h : insertAppointment db r = .ok db') :
    db'.appointments = db.appointments ++ [mkAppointmentRow db r] := by
  unfold insertAppointment at h
  repeat' split at h
  all_goals first
    | exact Except.noConfusion h
    | (injection h with h; subst h; rfl)

/-- A row an accepted `appointments` INSERT stores passes both check
constraints. -/
theorem insertAppointment_ok_rowOk {db db' : DB} {r : AppointmentInsert}
    (h : insertAppointment db r = .ok db') :
    appointmentRowOk (mkAppointmentRow db r) = true := by
  by_cases hc : appointmentRowOk (mkAppointmentRow db r) = true
  · exact hc
  · rw [Bool.not_eq_true] at hc
    unfold insertAppointment at h
    rw [hc] at h
    simp at h

/-- An accepted `appointments` UPDATE maps the update over the matched
rows, and every updated row passes both check constraints. -/
theorem updateAppointment_ok {db db' : DB} {i : UUID} {u : AppointmentUpdate}
    (h : updateAppointment db i u = .ok db') :
    db'.appointments = db.appointments.map
      (fun a => if a.id == i then applyAppointmentUpdate db.clock u a else a) ∧
    (db.appointments.filter (fun a => a.id == i)).all
      (fun a => appointmentRowOk (applyAppointmentUpdate db.clock u a)) = true := by
  unfold updateAppointment at h
  split at h
  · rename_i hc
    injection h with h
    subst h
    exact ⟨rfl, hc⟩
  · exact Except.noConfusion h

/-- `valid_appointment_time` follows from the conjunction of the two
`appointments` check constraints. -/
theorem appointmentTimeOk_of_rowOk {a : AppointmentRow}
    (h : appointmentRowOk a = true) : appointmentTimeOk a = true := by
  unfold appointmentRowOk at h
  unfold appointmentTimeOk
  rw [Bool.and_eq_true] at h
  exact h.2

/-- The demo store is reachable through accepted statements. -/
theorem demo_db_reachable : Reachable demo_db := by
  have h1 := Reachable.insert_user demo_specialist_user Reachable.empty rfl
  have h2 := Reachable.insert_user demo_patient_user1 h1 rfl
  have h3 := Reachable.insert_user demo_patient_user2 h2 rfl
  have h4 := Reachable.insert_user demo_family_user h3 rfl
  have h5 := Reachable.insert_specialist
    { user_id := 0, specialty := "Acupuncture" } h4 rfl
  have h6 := Reachable.insert_patient
    { user_id := 1, date_of_birth := 19900101 } h5 rfl
  have h7 := Reachable.insert_patient
    { user_id := 2, date_of_birth := 19910101 } h6 rfl
  exact Reachable.insert_family_member
    { user_id := 3, patient_id := 5, relationship := "spouse" } h7 rfl

/-! ## Claims -/

/-- C2: the check constraint named `valid_day_of_week`, as actually
constructed by the Python expression `day_of_week >= 1 and day_of_week <= 7`,
denotes exactly the single upper-bound predicate `day_of_week <= 7`; in
particular the value 0, below the documented lower bound 1, satisfies it,
so the lower bound `day_of_week >= 1` is not enforced. -/
theorem valid_day_of_week_collapses_to_upper_bound :
    (∀ v : Int, valid_day_of_week_expr.eval v = decide (v ≤ 7)) ∧
    valid_day_of_week_expr.eval 0 = true ∧ (0 : Int) < 1 :=
  ⟨fun _ => rfl, rfl, by decide⟩

/-- C1 (failing input): the schema accepts an `availability_blocks` row
with `day_of_week = 0`. The state `demo_db_block` is reachable through
accepted statements — the last one being the INSERT of `demo_block`, whose
`day_of_week = 0` passes the `valid_day_of_week` check as constructed — and
it contains a row with `day_of_week` below 1, so `day_of_week ∈ [1, 7]`
does not hold at every reachable state (the claimed lower bound is the
documented intent of the constraint, but the constraint as written does not
enforce it). -/
theorem availability_day_of_week_zero_reachable :
    insertAvailabilityBlock demo_db demo_block = .ok demo_db_block ∧
    Reachable demo_db_block ∧
    demo_db_block.availability_blocks.any
      (fun b => decide (b.day_of_week < 1)) = true :=
  ⟨rfl,
   Reachable.insert_availability_block demo_block demo_db_reachable rfl,
   rfl⟩

/-- C3 (counterexample): `family_members.user_id` is not unique. In the
reachable demo store, which already holds a family-member row for user 3,
the INSERT of a second row with the same `user_id = 3` (but another
`patient_id`) is accepted, and the store then holds two `family_members`
rows referencing user 3 — refuting "for every User, at most one row of each
sub-profile table may reference that User, and inserting a second row with
the same user_id fails with a uniqueness violation". -/
theorem familymember_duplicate_user_id_accepted :
    Reachable demo_db ∧
    demo_db.family_members.any (fun f => f.user_id == 3) = true ∧
    insertFamilyMember demo_db demo_fm2 = .ok demo_db_fm2 ∧
    (demo_db_fm2.family_members.filter (fun f => f.user_id == 3)).length = 2 :=
  ⟨demo_db_reachable, rfl, rfl, rfl⟩

/-- C3 (amended): the owning foreign key `user_id` is unique on
`specialists` and on `patients` — a second INSERT with an already-used
`user_id` fails with a uniqueness violation — while `family_members`
enforces uniqueness only of the `(user_id, patient_id)` pair: a second row
with an already-used pair fails, but a second row with the same `user_id`
and a different `patient_id` is accepted (see the counterexample). -/
theorem subprofile_owning_fk_uniqueness :
    (∀ (db : DB) (r : SpecialistInsert),
      db.specialists.any (fun s => s.user_id == r.user_id) = true →
      insertSpecialist db r = .error "unique: specialists.user_id") ∧
    (∀ (db : DB) (r : PatientInsert),
      db.patients.any (fun p => p.user_id == r.user_id) = true →
      insertPatient db r = .error "unique: patients.user_id") ∧
    (∀ (db : DB) (r : FamilyMemberInsert),
      db.family_members.any
        (fun f => f.user_id == r.user_id && f.patient_id == r.patient_id) = true →
      insertFamilyMember db r = .error "unique: unique_user_patient") := by
  refine ⟨fun db r h => ?_, fun db r h => ?_, fun db r h => ?_⟩
  · unfold insertSpecialist
    rw [h]
    rfl
  · unfold insertPatient
    rw [h]
    rfl
  · unfold insertFamilyMember
    rw [h]
    rfl

/-- Witness for C3 (amended): in the demo store, user 0 already owns a
specialist profile, user 1 a patient profile, and the pair (user 3,
patient 5) a family-member row; each duplicating INSERT fails with the
uniqueness violation. -/
theorem subprofile_owning_fk_uniqueness_witness :
    insertSpecialist demo_db { user_id := 0, specialty := "Massage" } =
      .error "unique: specialists.user_id" ∧
    insertPatient demo_db { user_id := 1, date_of_birth := 19800101 } =
      .error "unique: patients.user_id" ∧
    insertFamilyMember demo_db
        { user_id := 3, patient_id := 5, relationship := "sibling" } =
      .error "unique: unique_user_patient" :=
  ⟨subprofile_owning_fk_uniqueness.1 demo_db
      { user_id := 0, specialty := "Massage" } rfl,
   subprofile_owning_fk_uniqueness.2.1 demo_db
      { user_id := 1, date_of_birth := 19800101 } rfl,
   subprofile_owning_fk_uniqueness.2.2 demo_db
      { user_id := 3, patient_id := 5, relationship := "sibling" } rfl⟩

/-- C4 (counterexample): not every table carries the four
creation/update/creator/updater audit columns. `notifications` has no
`updated_at`, `created_by` or `updated_by` column, and `audit_logs` has no
`created_at` column (its only time column is `timestamp`). -/
theorem notification_auditlog_audit_columns_missing :
    schema_tables.all (fun t => hasAuditColumns t.2) = false ∧
    notifications_columns.contains "updated_at" = false ∧
    notifications_columns.contains "created_by" = false ∧
    notifications_columns.contains "updated_by" = false ∧
    audit_logs_columns.contains "created_at" = false :=
  ⟨rfl, rfl, rfl, rfl, rfl⟩

/-- C4 (amended): every table carries a generated `id` primary key; the
ten tables other than `notifications` and `audit_logs` carry all four audit
columns (`created_at`, `updated_at`, `created_by`, `updated_by`);
`notifications` carries `created_at` but none of the other three;
`audit_logs` carries none of the four — each of `created_at`, `updated_at`,
`created_by` and `updated_by` is absent — and records its own `timestamp`
column instead. -/
theorem audit_columns_coverage :
    schema_tables.all (fun t => t.2.contains "id") = true ∧
    core_tables.all (fun t => hasAuditColumns t.2) = true ∧
    notifications_columns.contains "created_at" = true ∧
    notifications_columns.contains "updated_at" = false ∧
    notifications_columns.contains "created_by" = false ∧
    notifications_columns.contains "updated_by" = false ∧
    audit_logs_columns.contains "created_at" = false ∧
    audit_logs_columns.contains "updated_at" = false ∧
    audit_logs_columns.contains "created_by" = false ∧
    audit_logs_columns.contains "updated_by" = false ∧
    audit_logs_columns.contains "timestamp" = true :=
  ⟨rfl, rfl, rfl, rfl, rfl, rfl, rfl, rfl, rfl, rfl, rfl⟩

/-- C6: an INSERT into `users` whose role is outside the closed set
{Admin, Specialist, Patient, FamilyMember} fails with the
`valid_user_role` check-constraint violation, on any store; no new state is
produced, so the insert is not applied. -/
theorem insert_user_invalid_role_rejected (db : DB) (r : UserInsert)
    (h : valid_user_role r.role = false) :
    insertUser db r = .error "check: valid_user_role" := by
  unfold insertUser
  rw [h]
  rfl

/-- Witness for C6: inserting the user with role `"Doctor"` into the fresh
store fails with the `valid_user_role` violation. -/
theorem insert_user_invalid_role_rejected_witness :
    valid_user_role "Doctor" = false ∧
    insertUser emptyDB doctor_user = .error "check: valid_user_role" :=
  ⟨rfl, insert_user_invalid_role_rejected emptyDB doctor_user rfl⟩

/-- C8: the first `create_sample_data` run against the fresh store
succeeds, producing `sample_db`; the second run against `sample_db` fails
with the uniqueness violation on `users.email` (the admin email is already
present) and does not complete. -/
theorem create_sample_data_second_run_unique_email :
    create_sample_data emptyDB = .ok sample_db ∧
    create_sample_data sample_db = .error "unique: users.email" :=
  ⟨rfl, rfl⟩

/-- C9 (counterexample): `create_tables` against a store where every table
already exists does not fail with an error — `create_all` checks first and
returns successfully, leaving the tables as they are. -/
theorem create_tables_existing_no_error :
    create_tables schema_table_names = .ok schema_table_names :=
  rfl

/-- C9 (amended): both lifecycle helpers are checkfirst no-ops rather than
errors: `create_tables` creates the missing tables and silently skips
existing ones (never failing), `drop_tables` drops the registered tables
that are present, is a no-op when they are absent, and leaves unregistered
tables in place; neither corrupts existing state. -/
theorem table_lifecycle_checkfirst_noop :
    create_tables [] = .ok schema_table_names ∧
    create_tables schema_table_names = .ok schema_table_names ∧
    drop_tables [] = .ok [] ∧
    drop_tables schema_table_names = .ok [] ∧
    drop_tables ["legacy_data"] = .ok ["legacy_data"] ∧
    (∀ existing : List String, ∃ result, create_tables existing = .ok result) ∧
    (∀ existing : List String, ∃ result, drop_tables existing = .ok result) :=
  ⟨rfl, rfl, rfl, rfl, rfl, fun _ => ⟨_, rfl⟩, fun _ => ⟨_, rfl⟩⟩

/-- C10: an `appointments` INSERT supplying no explicit `status` value
stores the row with `status = "Pending"` (the column default): the accepted
INSERT appends exactly the built row, and that row's status is Pending. -/
theorem appointment_status_defaults_pending (db : DB) (r : AppointmentInsert)
    (db' : DB) (hs : r.status = none) (h : insertAppointment db r = .ok db') :
    db'.appointments.getLast? = some (mkAppointmentRow db r) ∧
    (mkAppointmentRow db r).status = "Pending" := by
  constructor
  · rw [insertAppointment_ok_shape h]
    exact List.getLast?_concat _
  · unfold mkAppointmentRow
    rw [hs]
    rfl

/-- Witness for C10: inserting `demo_appointment` (no explicit status) into
the demo store stores a row whose status is `"Pending"`. -/
theorem appointment_status_defaults_pending_witness :
    demo_db_appt.appointments.getLast? =
      some (mkAppointmentRow demo_db demo_appointment) ∧
    (mkAppointmentRow demo_db demo_appointment).status = "Pending" :=
  appointment_status_defaults_pending demo_db demo_appointment demo_db_appt rfl rfl

/-- C5: at every reachable state — after any sequence of statements the
schema accepts — every `appointments` row satisfies
`end_datetime > start_datetime`: the `valid_appointment_time` check holds
after insertion and is preserved by every accepted update (and by the
declared delete cascades). -/
theorem appointment_interval_invariant (db : DB) (h : Reachable db) :
    db.appointments.all appointmentTimeOk = true := by
  induction h with
  | empty => rfl
  | insert_user r _ heq ih =>
      rw [insertUser_ok_appointments heq]; exact ih
  | insert_specialist r _ heq ih =>
      rw [insertSpecialist_ok_appointments heq]; exact ih
  | insert_patient r _ heq ih =>
      rw [insertPatient_ok_appointments heq]; exact ih
  | insert_family_member r _ heq ih =>
      rw [insertFamilyMember_ok_appointments heq]; exact ih
  | insert_availability_block r _ heq ih =>
      rw [insertAvailabilityBlock_ok_appointments heq]; exact ih
  | update_availability_block i u _ heq ih =>
      rw [updateAvailabilityBlock_ok_appointments heq]; exact ih
  | insert_appointment r _ heq ih =>
      rw [insertAppointment_ok_shape heq, List.all_append, ih,
        Bool.true_and, List.all_cons, List.all_nil, Bool.and_true]
      exact appointmentTimeOk_of_rowOk (insertAppointment_ok_rowOk heq)
  | update_appointment i u _ heq ih =>
      obtain ⟨hshape, hguard⟩ := updateAppointment_ok heq
      rw [hshape, List.all_eq_true]
      rw [List.all_eq_true] at ih hguard
      intro x hx
      rw [List.mem_map] at hx
      obtain ⟨a, ha, rfl⟩ := hx
      by_cases hid : (a.id == i) = true
      · rw [if_pos hid]
        exact appointmentTimeOk_of_rowOk
          (hguard a (List.mem_filter.mpr ⟨ha, hid⟩))
      · rw [if_neg hid]
        exact ih a ha
  | delete_patient pid _ ih =>
      rw [List.all_eq_true] at ih ⊢
      intro x hx
      exact ih x (List.mem_of_mem_filter hx)
  | delete_specialist sid _ ih =>
      rw [List.all_eq_true] at ih ⊢
      intro x hx
      exact ih x (List.mem_of_mem_filter hx)

/-- Witness for C5: the reachable demo store holding one appointment
satisfies the interval invariant. -/
theorem appointment_interval_invariant_witness :
    demo_db_appt.appointments.all appointmentTimeOk = true :=
  appointment_interval_invariant demo_db_appt
    (Reachable.insert_appointment demo_appointment demo_db_reachable rfl)

/-- C7: deleting a `patients` row removes every `appointments`,
`medical_records`, `family_members` and `patient_material_assignments` row
referencing it (the declared `ondelete='CASCADE'`), together with the
patient row itself; deleting a `specialists` row leaves every `templates`
and `educational_materials` row in place (same row count) and nulls the
rows' specialist reference (the declared `ondelete='SET NULL'`), so no
template or material references the deleted specialist afterwards. -/
theorem patient_cascade_specialist_setnull (db : DB) (pid sid : UUID) :
    (deletePatient db pid).patients.all (fun p => decide (p.id ≠ pid)) = true ∧
    (deletePatient db pid).appointments.all
      (fun a => decide (a.patient_id ≠ pid)) = true ∧
    (deletePatient db pid).medical_records.all
      (fun m => decide (m.patient_id ≠ pid)) = true ∧
    (deletePatient db pid).family_members.all
      (fun f => decide (f.patient_id ≠ pid)) = true ∧
    (deletePatient db pid).patient_material_assignments.all
      (fun x => decide (x.patient_id ≠ pid)) = true ∧
    (deleteSpecialist db sid).templates.length = db.templates.length ∧
    (deleteSpecialist db sid).templates.all
      (fun t => decide (t.specialist_id ≠ some sid)) = true ∧
    (deleteSpecialist db sid).educational_materials.length =
      db.educational_materials.length ∧
    (deleteSpecialist db sid).educational_materials.all
      (fun m => decide (m.specialist_id ≠ some sid)) = true := by
  refine ⟨?_, ?_, ?_, ?_, ?_, ?_, ?_, ?_, ?_⟩
  · simp only [deletePatient]
    rw [List.all_eq_true]
    exact fun x hx => (List.mem_filter.mp hx).2
  · simp only [deletePatient]
    rw [List.all_eq_true]
    exact fun x hx => (List.mem_filter.mp hx).2
  · simp only [deletePatient]
    rw [List.all_eq_true]
    exact fun x hx => (List.mem_filter.mp hx).2
  · simp only [deletePatient]
    rw [List.all_eq_true]
    exact fun x hx => (List.mem_filter.mp hx).2
  · simp only [deletePatient]
    rw [List.all_eq_true]
    exact fun x hx => (List.mem_filter.mp hx).2
  · exact List.length_map _ _
  · simp only [deleteSpecialist]
    rw [List.all_eq_true]
    intro x hx
    rw [List.mem_map] at hx
    obtain ⟨t, _, rfl⟩ := hx
    by_cases hc : t.specialist_id = some sid
    · rw [if_pos hc]
      rfl
    · rw [if_neg hc]
      exact decide_eq_true hc
  · exact List.length_map _ _
  · simp only [deleteSpecialist]
    rw [List.all_eq_true]
    intro x hx
    rw [List.mem_map] at hx
    obtain ⟨m, _, rfl⟩ := hx
    by_cases hc : m.specialist_id = some sid
    · rw [if_pos hc]
      rfl
    · rw [if_neg hc]
      exact decide_eq_true hc

end SyEI

